import Mathlib

/-!
Shallow embedding of the swap pricing and execution engine of the KRW-IOU
api-server repository.  JavaScript numbers are modelled as rationals (ℚ);
where a claim depends only on finite arithmetic this is exact, and the one
place where JS produces a non-finite value (division by a zero rate) is
modelled explicitly by `jsDiv` returning `none`.  Dates are modelled as
integers (comparison is all the code uses).  Mongoose documents are modelled
as structures holding the fields the core logic reads; bookkeeping fields
(`createdAt`, `updatedAt`, `createdBy`, `source`, `configId`, `_id`) that no
claim touches are omitted.
-/

/-- Numeric truthiness of JavaScript: a number is truthy iff it is nonzero
(NaN never arises for the rational inputs modelled here). -/
def jsTruthy (q : ℚ) : Bool := q ≠ 0

/-- JavaScript division, with `none` standing for the non-finite result
(`Infinity` or `NaN`) produced when the divisor is zero. -/
def jsDiv (a b : ℚ) : Option ℚ := if b = 0 then none else some (a / b)

/-- JavaScript String.prototype.toUpperCase, as a character-wise map over
the string's characters. -/
def jsToUpperCase (s : String) : String := ⟨s.data.map Char.toUpper⟩

/-! ### Fee policy store: `SwapFeeConfig` (src/domains/swap/models, SwapFeeConfig schema) -/

/-- Fee type enum of the SwapFeeConfig schema. -/
inductive FeeType where
  | PERCENTAGE
  | FIXED
  | TIERED
deriving DecidableEq, Repr

/-- One entry of `tieredRates`: `{minAmount, maxAmount|null, feeRate}`. -/
structure FeeTier where
  minAmount : ℚ
  maxAmount : Option ℚ
  feeRate : ℚ
deriving DecidableEq, Repr

/-- A SwapFeeConfig document (fields read by `calculateFee` and
`getCurrentFeeConfig`). -/
structure SwapFeeConfig where
  swapType : String
  feeType : FeeType
  baseFee : ℚ
  minFee : ℚ
  maxFee : Option ℚ
  tieredRates : List FeeTier
  isActive : Bool
  effectiveFrom : Int
  effectiveTo : Option Int
deriving DecidableEq, Repr

/-- Condition of the TIERED loop:
`amount >= tier.minAmount && (tier.maxAmount === null || amount <= tier.maxAmount)`. -/
def tierMatches (t : FeeTier) (amount : ℚ) : Bool :=
  decide (t.minAmount ≤ amount) &&
    (match t.maxAmount with
     | none => true
     | some m => decide (amount ≤ m))

/-- The `for (const tier of this.tieredRates) { ... break }` loop of
`calculateFee`: the first matching tier sets the fee, and `fee` stays at its
initial value `0` when no tier matches. -/
def tieredFee (tiers : List FeeTier) (amount : ℚ) : ℚ :=
  match tiers with
  | [] => 0
  | t :: ts => if tierMatches t amount then amount * t.feeRate else tieredFee ts amount

/-- The `switch (this.feeType)` of `calculateFee`, before the clamps. -/
def rawFee (cfg : SwapFeeConfig) (amount : ℚ) : ℚ :=
  match cfg.feeType with
  | .PERCENTAGE => amount * cfg.baseFee
  | .FIXED => cfg.baseFee
  | .TIERED => tieredFee cfg.tieredRates amount

/-- The minimum-fee clamp `if (this.minFee && fee < this.minFee) fee = this.minFee`;
`this.minFee` is a numeric truthiness test, so `minFee = 0` disables the clamp. -/
def applyMinFee (cfg : SwapFeeConfig) (fee : ℚ) : ℚ :=
  if jsTruthy cfg.minFee ∧ fee < cfg.minFee then cfg.minFee else fee

/-- The maximum-fee clamp `if (this.maxFee && fee > this.maxFee) fee = this.maxFee`;
`this.maxFee` is truthy only when it is neither `null` nor `0`. -/
def applyMaxFee (cfg : SwapFeeConfig) (fee : ℚ) : ℚ :=
  match cfg.maxFee with
  | none => fee
  | some m => if jsTruthy m ∧ m < fee then m else fee

/-- Result object of `calculateFee` (the `configId` field is omitted). -/
structure FeeResult where
  grossAmount : ℚ
  fee : ℚ
  netAmount : ℚ
  feeRate : Option ℚ
  feeType : FeeType
deriving DecidableEq, Repr

/-- SwapFeeConfigSchema.methods.calculateFee: raw fee by fee type, then the
min clamp, then the max clamp, then the result object. -/
def calculateFee (cfg : SwapFeeConfig) (amount : ℚ) : FeeResult :=
  let fee := rawFee cfg amount
  let fee := applyMinFee cfg fee
  let fee := applyMaxFee cfg fee
  { grossAmount := amount
    fee := fee
    netAmount := amount - fee
    feeRate := if cfg.feeType = .PERCENTAGE then some cfg.baseFee else none
    feeType := cfg.feeType }

/-! ### Demo configurations used by the witnesses -/

/-- The PERCENTAGE config `{baseFee: 0.003, minFee: 10, maxFee: 5}` of the
clamp-order scenario. -/
def clampOrderCfg : SwapFeeConfig :=
  { swapType := "XRP_TO_KRW", feeType := .PERCENTAGE, baseFee := 0.003
    minFee := 10, maxFee := some 5, tieredRates := []
    isActive := true, effectiveFrom := 0, effectiveTo := none }

/-- Tier 1 of the TIERED scenario: `{min: 0, max: 100, rate: 0.01}`. -/
def demoTier1 : FeeTier := { minAmount := 0, maxAmount := some 100, feeRate := 0.01 }

/-- Tier 2 of the TIERED scenario: `{min: 100, max: null, rate: 0.005}`. -/
def demoTier2 : FeeTier := { minAmount := 100, maxAmount := none, feeRate := 0.005 }

/-- The TIERED config holding `[demoTier1, demoTier2]` with the schema
defaults `minFee = 0` and `maxFee = null`. -/
def demoTieredCfg : SwapFeeConfig :=
  { swapType := "XRP_TO_KRW", feeType := .TIERED, baseFee := 0.003
    minFee := 0, maxFee := none, tieredRates := [demoTier1, demoTier2]
    isActive := true, effectiveFrom := 0, effectiveTo := none }

/-- A FIXED config with `baseFee = 50`, `minFee = 0` and `maxFee = 0`. -/
def fixed50Cfg : SwapFeeConfig :=
  { swapType := "KRW_TO_XRP", feeType := .FIXED, baseFee := 50
    minFee := 0, maxFee := some 0, tieredRates := []
    isActive := true, effectiveFrom := 0, effectiveTo := none }

/-! ### Rate registry: `ExchangeRate` (src/domains/swap/models/ExchangeRate.js) -/

/-- An ExchangeRate document (fields read by the pre-save hook,
`getCurrentRate` and the conversion methods).  `bidRate`, `askRate` are
`Option` because the schema does not require them; `spread` is `Option`
because the pre-save hook tests `this.spread !== undefined`. -/
structure ExchangeRate where
  baseCurrency : String
  quoteCurrency : String
  rate : ℚ
  bidRate : Option ℚ
  askRate : Option ℚ
  spread : Option ℚ
  isActive : Bool
  validFrom : Int
  validTo : Option Int
deriving DecidableEq, Repr

/-- ExchangeRateSchema.pre of save: when `this.rate` is truthy and
`this.spread !== undefined`, recompute `bidRate = rate - rate*spread` and
`askRate = rate + rate*spread`.  The `updatedAt` bookkeeping of the hook is
omitted (no claim reads it). -/
def preSaveExchangeRate (r : ExchangeRate) : ExchangeRate :=
  match r.spread with
  | some s =>
    if jsTruthy r.rate then
      { r with bidRate := some (r.rate - r.rate * s)
               askRate := some (r.rate + r.rate * s) }
    else r
  | none => r

/-- Filter of `getCurrentRate`'s `findOne`: pair match (query values are
uppercased, stored values are uppercased by the schema), `isActive`,
`validFrom <= now` and `validTo` either `null` or `>= now`. -/
def currentRatePred (base quote : String) (now : Int) (r : ExchangeRate) : Bool :=
  r.baseCurrency == jsToUpperCase base && r.quoteCurrency == jsToUpperCase quote &&
    r.isActive && decide (r.validFrom ≤ now) &&
    (match r.validTo with
     | none => true
     | some t => decide (now ≤ t))

/-- Model of `findOne(...).sort(validFrom - descending)` applied to a record
list: the record with the greatest `validFrom`, the earliest-listed one
winning ties (a deterministic rendering of the store's descending sort). -/
def pickLatest : List ExchangeRate → Option ExchangeRate
  | [] => none
  | r :: rs =>
    match pickLatest rs with
    | none => some r
    | some b => if b.validFrom ≤ r.validFrom then some r else some b

/-- ExchangeRateSchema.statics.getCurrentRate over an explicit record store. -/
def getCurrentRate (store : List ExchangeRate) (base quote : String) (now : Int) :
    Option ExchangeRate :=
  pickLatest (store.filter (currentRatePred base quote now))

/-- Result object of `convertAmount`.  `convertedAmount` uses `jsDiv`'s
convention: `none` is the non-finite JS number produced by a zero divisor. -/
structure ConversionResult where
  originalAmount : ℚ
  originalCurrency : String
  convertedAmount : Option ℚ
  convertedCurrency : String
  rate : ℚ
  direction : String
deriving DecidableEq, Repr

/-- ExchangeRateSchema.methods.convertAmount: multiply by the rate in the
`base_to_quote` direction, divide by it otherwise. -/
def convertAmount (r : ExchangeRate) (amount : ℚ) (direction : String) : ConversionResult :=
  if direction == "base_to_quote" then
    { originalAmount := amount, originalCurrency := r.baseCurrency
      convertedAmount := some (amount * r.rate), convertedCurrency := r.quoteCurrency
      rate := r.rate, direction := "base_to_quote" }
  else
    { originalAmount := amount, originalCurrency := r.quoteCurrency
      convertedAmount := jsDiv amount r.rate, convertedCurrency := r.baseCurrency
      rate := r.rate, direction := "quote_to_base" }

/-- Result object of AdminIOUService.convertKRWToXRP. -/
structure ConvertKRWResult where
  success : Bool
  krwAmount : Option ℚ := none
  xrpAmount : Option ℚ := none
  rate : Option ℚ := none
  error : Option String := none
deriving DecidableEq, Repr

/-- AdminIOUService.convertKRWToXRP: look up the current XRP/KRW rate
(`getCurrentExchangeRate` succeeds exactly when a current record exists and
then reports that record's `rate`), and on success return
`xrpAmount = krwAmount / rate` with no further checks — a zero stored rate
still takes the success branch. -/
def convertKRWToXRP (store : List ExchangeRate) (now : Int) (krwAmount : ℚ) :
    ConvertKRWResult :=
  match getCurrentRate store "XRP" "KRW" now with
  | some r =>
    { success := true, krwAmount := some krwAmount
      xrpAmount := jsDiv krwAmount r.rate, rate := some r.rate }
  | none => { success := false, error := some "Exchange rate not available" }

/-! ### Access gate: `PermissionedDomain` and AdminDomainService.checkTrustLinePermission -/

/-- KYC status enum of the whitelist sub-schema. -/
inductive KycStatus where
  | pending
  | verified
  | rejected
deriving DecidableEq, Repr

/-- A whitelist entry (`allowedAccounts` element). -/
structure AllowedAccount where
  address : String
  email : Option String := none
  kycStatus : KycStatus
  approvedAt : Option Int := none
  approvedBy : Option String := none
deriving DecidableEq, Repr

/-- A blacklist entry (`blockedAccounts` element). -/
structure BlockedAccount where
  address : String
  reason : Option String := none
  blockedAt : Option Int := none
  blockedBy : Option String := none
deriving DecidableEq, Repr

/-- The domain-level `settings` sub-document. -/
structure DomainSettings where
  requireKYC : Bool
  maxTrustLineAmount : String
  autoApproval : Bool
  requireEmailVerification : Bool
deriving DecidableEq, Repr

/-- Domain type enum. -/
inductive DomainType where
  | whitelist
  | blacklist
  | kyc_required
deriving DecidableEq, Repr

/-- Domain status enum. -/
inductive DomainStatus where
  | active
  | inactive
  | suspended
deriving DecidableEq, Repr

/-- A PermissionedDomain document (fields read by the access gate). -/
structure PermissionedDomain where
  domain : String
  issuerAddress : String
  domainType : DomainType
  status : DomainStatus
  allowedAccounts : List AllowedAccount
  blockedAccounts : List BlockedAccount
  settings : DomainSettings
deriving DecidableEq, Repr

/-- permissionedDomainSchema.methods.isAccountAllowed: blacklist mode allows
iff the address is not blocked; whitelist mode allows iff some whitelist
entry has the address and (`!settings.requireKYC ||` the entry's
`kycStatus === 'verified'`); any other domain type falls through to `true`. -/
def isAccountAllowed (d : PermissionedDomain) (accountAddress : String) : Bool :=
  if d.domainType = .blacklist then
    !(d.blockedAccounts.any (fun b => b.address == accountAddress))
  else if d.domainType = .whitelist then
    d.allowedAccounts.any (fun a =>
      a.address == accountAddress &&
        (!d.settings.requireKYC || a.kycStatus == .verified))
  else
    true

/-- Result object of `checkTrustLinePermission`; `domain`/`domainType` are
absent (`none`) on the branches whose JS object lacks those keys. -/
structure PermissionResult where
  allowed : Bool
  reason : String
  domain : Option String := none
  domainType : Option DomainType := none
deriving DecidableEq, Repr

/-- Model of `PermissionedDomain.findOne` with an issuer-address and
active-status filter: the first matching record of the store. -/
def findActiveDomain (store : List PermissionedDomain) (issuer : String) :
    Option PermissionedDomain :=
  store.find? (fun d => d.issuerAddress == issuer && d.status == .active)

/-- AdminDomainService.checkTrustLinePermission.  The xrpl-library address
check is an external collaborator and is passed in as `isValidXRPAddress`;
`adminAddress` is `none` when the admin system service is uninitialized. -/
def checkTrustLinePermission (isValidXRPAddress : String → Bool)
    (adminAddress : Option String) (store : List PermissionedDomain)
    (userAddress : String) : PermissionResult :=
  if !(isValidXRPAddress userAddress) then
    { allowed := false, reason := "Invalid user address" }
  else
    match adminAddress with
    | none => { allowed := false, reason := "Admin not initialized" }
    | some issuer =>
      match findActiveDomain store issuer with
      | none => { allowed := true, reason := "No domain restrictions" }
      | some d =>
        let isAllowed := isAccountAllowed d userAddress
        { allowed := isAllowed
          reason := if isAllowed then "Account is permitted"
                    else "Account not in whitelist or blocked"
          domain := some d.domain
          domainType := some d.domainType }

/-! ### Swap orchestrator: AdminIOUService (IOU to XRP two-leg settlement) -/

/-- An XRPL payment amount: an issued-token amount or native drops. -/
inductive PaymentAmount where
  | iou (currency : String) (value : ℚ) (issuer : String)
  | drops (value : ℚ)
deriving DecidableEq, Repr

/-- The fields of a Payment transaction built by AdminIOUService. -/
structure Payment where
  account : String
  amount : PaymentAmount
  destination : String
deriving DecidableEq, Repr

/-- Result of XRPLService.submitAndWait: success flag, transaction hash and
the ledger's error code (`error` is `none` exactly on success). -/
structure SubmitResult where
  success : Bool
  txHash : Option String := none
  error : Option String := none
deriving DecidableEq, Repr

/-- The hard-coded fallback fee rate `SWAP_FEE_RATE = 0.003`. -/
def SWAP_FEE_RATE : ℚ := 0.003

/-- AdminIOUService.calculateSwapFee: use the current active fee config when
one exists, otherwise the hard-coded percentage fallback. -/
def calculateSwapFee (cfg : Option SwapFeeConfig) (swapAmount : ℚ) : FeeResult :=
  match cfg with
  | some c => calculateFee c swapAmount
  | none =>
    { grossAmount := swapAmount
      fee := swapAmount * SWAP_FEE_RATE
      netAmount := swapAmount - swapAmount * SWAP_FEE_RATE
      feeRate := some SWAP_FEE_RATE
      feeType := .PERCENTAGE }

/-- Result object of `processIOUToXRPSwap`.  The success branch fills the
amount and hash fields; every failure branch returns only
`{success: false, error}` — the type mirrors the JS objects, which carry no
status field and no leg-1 hash on failure. -/
structure SwapOutcome where
  success : Bool
  error : Option String := none
  iouReturned : Option ℚ := none
  fee : Option ℚ := none
  xrpReceived : Option ℚ := none
  returnTxHash : Option String := none
  xrpTxHash : Option String := none
deriving DecidableEq, Repr

/-- Leg-1 payment of the IOU-to-XRP swap: the user returns the KRW IOU to
the admin issuer. -/
def returnPaymentOf (admin user : String) (iouAmount : ℚ) : Payment :=
  { account := user
    amount := .iou "KRW" iouAmount admin
    destination := admin }

/-- Leg-2 payment of the IOU-to-XRP swap: the admin pays the fee-adjusted
net amount in drops (`netAmount * 1000000`) to the user. -/
def xrpPaymentOf (admin user : String) (cfg : Option SwapFeeConfig) (iouAmount : ℚ) :
    Payment :=
  { account := admin
    amount := .drops ((calculateSwapFee cfg iouAmount).netAmount * 1000000)
    destination := user }

/-- AdminIOUService.processIOUToXRPSwap.  The ledger collaborator is the
oracle `submit`; the second component of the result is the list of payments
actually submitted, in order.  Leg 1 (IOU return) is submitted first; only
when it succeeds are the fee computed and leg 2 (XRP payout) submitted.
A leg-2 failure throws `XRP payment failed: ...`, which the catch block
turns into a generic `{success: false, error}` result. -/
def processIOUToXRPSwap (adminAddress : Option String) (cfg : Option SwapFeeConfig)
    (submit : Payment → SubmitResult) (userAddress : String) (iouAmount : ℚ) :
    SwapOutcome × List Payment :=
  match adminAddress with
  | none => ({ success := false, error := some "Admin not initialized" }, [])
  | some admin =>
    let returnPayment := returnPaymentOf admin userAddress iouAmount
    let returnResult := submit returnPayment
    if returnResult.success then
      let feeCalculation := calculateSwapFee cfg iouAmount
      let xrpPayment := xrpPaymentOf admin userAddress cfg iouAmount
      let xrpResult := submit xrpPayment
      if xrpResult.success then
        ({ success := true
           iouReturned := some iouAmount
           fee := some feeCalculation.fee
           xrpReceived := some feeCalculation.netAmount
           returnTxHash := returnResult.txHash
           xrpTxHash := xrpResult.txHash }, [returnPayment, xrpPayment])
      else
        ({ success := false
           error := some ("XRP payment failed: " ++ xrpResult.error.getD "null") },
         [returnPayment, xrpPayment])
    else
      ({ success := false
         error := some ("IOU return failed: " ++ returnResult.error.getD "null") },
       [returnPayment])

/-! ### Issuance accounting: AdminIOUService.getTotalIssuedAmount -/

/-- A ledger-reported trust line, keeping the two fields the code reads
(`balance` is parsed with `parseFloat`, modelled as ℚ). -/
structure TrustLine where
  currency : String
  balance : ℚ
deriving DecidableEq, Repr

/-- Result object of `getTotalIssuedAmount`. -/
structure IssuedAmountResult where
  success : Bool
  totalIssued : Option ℚ := none
  currency : Option String := none
  error : Option String := none
deriving DecidableEq, Repr

/-- AdminIOUService.getTotalIssuedAmount: over the issuer's account lines
(`none` models a failed `getAccountLines`), add `Math.abs(parseFloat(balance))`
for every line whose currency is KRW — the loop has no sign test. -/
def getTotalIssuedAmount (adminAddress : Option String)
    (linesResult : Option (List TrustLine)) : IssuedAmountResult :=
  match adminAddress with
  | none => { success := false, error := some "Admin not initialized" }
  | some _ =>
    match linesResult with
    | none => { success := false, error := some "Failed to get account lines" }
    | some lines =>
      let totalIssued := lines.foldl
        (fun acc line => if line.currency == "KRW" then acc + |line.balance| else acc) 0
      { success := true, totalIssued := some totalIssued, currency := some "KRW" }

/-- Modelled from the spec: the total the specification describes for
issuance accounting — the sum of the absolute values of only the NEGATIVE
KRW balances, positive balances contributing nothing.  Used to compare the
spec's description with `getTotalIssuedAmount`. -/
def specNegativeOnlyIssuedTotal (lines : List TrustLine) : ℚ :=
  ((lines.filter (fun l => l.currency == "KRW" && decide (l.balance < 0))).map
    (fun l => |l.balance|)).sum

/-! ### Concrete records used by witnesses and counterexamples -/

/-- An active XRP/KRW rate record starting at time 3. -/
def demoRateA : ExchangeRate :=
  { baseCurrency := "XRP", quoteCurrency := "KRW", rate := 4100
    bidRate := none, askRate := none, spread := none
    isActive := true, validFrom := 3, validTo := none }

/-- A second active XRP/KRW rate record starting later, at time 5. -/
def demoRateB : ExchangeRate :=
  { baseCurrency := "XRP", quoteCurrency := "KRW", rate := 4197
    bidRate := none, askRate := none, spread := none
    isActive := true, validFrom := 5, validTo := none }

/-- A store holding both demo rate records, earlier one listed first. -/
def demoRateStore : List ExchangeRate := [demoRateA, demoRateB]

/-- The end-to-end scenario record: rate 4197, spread 0.001. -/
def demoRate4197 : ExchangeRate :=
  { baseCurrency := "XRP", quoteCurrency := "KRW", rate := 4197
    bidRate := none, askRate := none, spread := some 0.001
    isActive := true, validFrom := 0, validTo := none }

/-- An active current XRP/KRW record whose stored rate is zero. -/
def zeroRateRecord : ExchangeRate :=
  { baseCurrency := "XRP", quoteCurrency := "KRW", rate := 0
    bidRate := none, askRate := none, spread := none
    isActive := true, validFrom := 0, validTo := none }

/-- A store whose only current record has rate zero. -/
def zeroRateStore : List ExchangeRate := [zeroRateRecord]

/-- An active whitelist domain requiring KYC whose single whitelist entry
for address rUSER still has `kycStatus = pending`. -/
def demoWhitelistDomain : PermissionedDomain :=
  { domain := "krw-iou.local", issuerAddress := "rADMIN"
    domainType := .whitelist, status := .active
    allowedAccounts := [{ address := "rUSER", kycStatus := .pending }]
    blockedAccounts := []
    settings := { requireKYC := true, maxTrustLineAmount := "1000000"
                  autoApproval := true, requireEmailVerification := false } }

/-- A ledger oracle for the partial-failure scenario: the IOU return leg
succeeds with hash H1, the XRP payout leg fails with code tecUNFUNDED_PAYMENT. -/
def partialFailSubmit : Payment → SubmitResult := fun p =>
  match p.amount with
  | .iou _ _ _ => { success := true, txHash := some "H1" }
  | .drops _ => { success := false, error := some "tecUNFUNDED_PAYMENT" }

/-- The outcome of the partial-failure scenario: admin rADMIN, no stored fee
config, user rUSER swapping 100 KRW IOU back to XRP. -/
def partialFailOutcome : SwapOutcome :=
  (processIOUToXRPSwap (some "rADMIN") none partialFailSubmit "rUSER" 100).1

/-- A KRW trust line whose ledger balance is positive (the admin HOLDS 5 KRW
issued by somebody else rather than owing it). -/
def positiveKrwLine : TrustLine := { currency := "KRW", balance := 5 }

/-! ### Helper lemmas -/

/-- pickLatest returns `none` exactly on the empty list. -/
theorem pickLatest_eq_none {l : List ExchangeRate} : pickLatest l = none ↔ l = [] := by
  cases l with
  | nil => simp [pickLatest]
  | cons r rs =>
    simp only [pickLatest]
    cases pickLatest rs with
    | none => simp
    | some b =>
      by_cases h : b.validFrom ≤ r.validFrom <;> simp [h]

/-- pickLatest returns an element of its input list. -/
theorem pickLatest_mem : ∀ {l : List ExchangeRate} {r : ExchangeRate},
    pickLatest l = some r → r ∈ l := by
  intro l
  induction l with
  | nil => intro r h; simp [pickLatest] at h
  | cons a as ih =>
    intro r h
    simp only [pickLatest] at h
    cases hp : pickLatest as with
    | none => rw [hp] at h; simp at h; simp [h]
    | some b =>
      rw [hp] at h
      by_cases hv : b.validFrom ≤ a.validFrom
      · simp [hv] at h; simp [h]
      · simp [hv] at h
        exact List.mem_cons_of_mem a (ih (h ▸ hp))

/-- pickLatest returns a record whose `validFrom` dominates the whole list. -/
theorem pickLatest_ge : ∀ {l : List ExchangeRate} {r : ExchangeRate},
    pickLatest l = some r → ∀ x ∈ l, x.validFrom ≤ r.validFrom := by
  intro l
  induction l with
  | nil => intro r _ x hx; simp at hx
  | cons a as ih =>
    intro r h x hx
    simp only [pickLatest] at h
    cases hp : pickLatest as with
    | none =>
      rw [hp] at h
      simp at h
      have : as = [] := pickLatest_eq_none.mp hp
      subst this
      simp at hx
      simp [hx, ← h]
    | some b =>
      rw [hp] at h
      by_cases hv : b.validFrom ≤ a.validFrom
      · simp [hv] at h
        rcases List.mem_cons.mp hx with hxa | hxs
        · simp [hxa, ← h]
        · exact le_trans (ih hp x hxs) (h ▸ hv)
      · simp [hv] at h
        rcases List.mem_cons.mp hx with hxa | hxs
        · exact h ▸ le_of_lt (by simpa [hxa] using lt_of_not_le hv)
        · exact h ▸ ih hp x hxs

/-- Folding the KRW absolute-balance accumulator equals the initial value
plus the sum of `|balance|` over the KRW-currency lines. -/
theorem krwAbsFoldl (lines : List TrustLine) (acc : ℚ) :
    lines.foldl (fun a line => if line.currency == "KRW" then a + |line.balance| else a) acc =
      acc + (((lines.filter (fun l => l.currency == "KRW")).map (fun l => |l.balance|)).sum) := by
  induction lines generalizing acc with
  | nil => simp
  | cons l ls ih =>
    cases h : (l.currency == "KRW") with
    | true =>
      simp only [List.foldl_cons, List.filter_cons, h, if_true, List.map_cons,
        List.sum_cons]
      rw [ih]
      ring
    | false =>
      simp only [List.foldl_cons, List.filter_cons, h, Bool.false_eq_true,
        if_false]
      exact ih acc

/-! ### Claim theorems -/

/-- C2: calculateFee applies the minimum-fee clamp before the maximum-fee
clamp, so whenever both clamps are enabled and `maxFee < minFee`, the
maximum silently wins and the returned fee is exactly `maxFee`; the
PERCENTAGE config `{baseFee: 0.003, minFee: 10, maxFee: 5}` at amount 100
(raw fee 0.3) therefore returns 5. -/
theorem calculateFee_min_then_max_clamp (cfg : SwapFeeConfig) (amount M : ℚ)
    (h1 : cfg.minFee ≠ 0) (h2 : cfg.maxFee = some M) (h3 : M ≠ 0)
    (h4 : M < cfg.minFee) :
    (calculateFee cfg amount).fee = M ∧
    (calculateFee cfg amount).fee = applyMaxFee cfg (applyMinFee cfg (rawFee cfg amount)) := by
  refine ⟨?_, rfl⟩
  show applyMaxFee cfg (applyMinFee cfg (rawFee cfg amount)) = M
  rw [applyMinFee]
  by_cases hf : rawFee cfg amount < cfg.minFee
  · simp [jsTruthy, h1, hf, applyMaxFee, h2, h3, h4]
  · have hM : M < rawFee cfg amount := lt_of_lt_of_le h4 (not_lt.mp hf)
    simp [jsTruthy, h1, hf, applyMaxFee, h2, h3, hM]

/-- Witness for C2: the concrete clamp-order scenario — raw fee 0.3 is
min-clamped to 10 and then max-clamped to 5. -/
theorem calculateFee_min_then_max_clamp_witness :
    (calculateFee clampOrderCfg 100).fee = 5 ∧ rawFee clampOrderCfg 100 = 0.3 :=
  ⟨(calculateFee_min_then_max_clamp clampOrderCfg 100 5 (by norm_num [clampOrderCfg]) rfl
      (by norm_num) (by norm_num [clampOrderCfg])).1,
   by norm_num [rawFee, clampOrderCfg]⟩

/-- C3: the TIERED branch scans `tieredRates` in list order; the first tier
containing the amount (lower bound and upper bound both inclusive, `null`
upper bound unbounded) sets `fee = amount * feeRate`, and the fee is 0 when
no tier matches.  For the two-tier demo config, amount 50 gives fee 0.5 from
tier 1, amount 500 gives fee 2.5 from tier 2, and amount exactly 100 matches
tier 1 (inclusive upper bound) giving `100 * 0.01`. -/
theorem tieredFee_first_match :
    (∀ (tiers : List FeeTier) (amount : ℚ),
        (∀ t ∈ tiers, tierMatches t amount = false) → tieredFee tiers amount = 0) ∧
    (∀ (pre post : List FeeTier) (t : FeeTier) (amount : ℚ),
        (∀ u ∈ pre, tierMatches u amount = false) → tierMatches t amount = true →
        tieredFee (pre ++ t :: post) amount = amount * t.feeRate) ∧
    (calculateFee demoTieredCfg 50).fee = 0.5 ∧
    (calculateFee demoTieredCfg 500).fee = 2.5 ∧
    tierMatches demoTier1 100 = true ∧
    (calculateFee demoTieredCfg 100).fee = 100 * demoTier1.feeRate := by
  refine ⟨?_, ?_,
    by norm_num [calculateFee, rawFee, applyMinFee, applyMaxFee, jsTruthy,
      demoTieredCfg, tieredFee, tierMatches, demoTier1, demoTier2],
    by norm_num [calculateFee, rawFee, applyMinFee, applyMaxFee, jsTruthy,
      demoTieredCfg, tieredFee, tierMatches, demoTier1, demoTier2],
    by norm_num [tierMatches, demoTier1],
    by norm_num [calculateFee, rawFee, applyMinFee, applyMaxFee, jsTruthy,
      demoTieredCfg, tieredFee, tierMatches, demoTier1, demoTier2]⟩
  · intro tiers amount h
    induction tiers with
    | nil => rfl
    | cons t ts ih =>
      rw [tieredFee, h t (by simp)]
      exact ih (fun u hu => h u (by simp [hu]))
  · intro pre post t amount hpre ht
    induction pre with
    | nil => simp [tieredFee, ht]
    | cons u us ih =>
      rw [List.cons_append, tieredFee, hpre u (by simp)]
      exact ih (fun v hv => hpre v (by simp [hv]))

/-- Witness for C3: the first-match scan evaluated on the demo tiers at
amounts 50 and 500. -/
theorem tieredFee_first_match_witness :
    tieredFee [demoTier1, demoTier2] 50 = 50 * demoTier1.feeRate ∧
    tieredFee [demoTier1, demoTier2] 500 = 500 * demoTier2.feeRate :=
  ⟨tieredFee_first_match.2.1 [] [demoTier2] demoTier1 50 (by simp)
      (by norm_num [tierMatches, demoTier1]),
   tieredFee_first_match.2.1 [demoTier1] [] demoTier2 500
      (by norm_num [tierMatches, demoTier1])
      (by norm_num [tierMatches, demoTier2])⟩

/-- C10: both clamps are guarded by JS numeric truthiness, so `minFee = 0`
disables the minimum clamp and `maxFee = 0` is no cap at all (the whole
result equals the one computed with `maxFee = null`); in particular the
FIXED config with `baseFee = 50` and `maxFee = 0` returns fee 50 at every
amount, not 0. -/
theorem calculateFee_zero_clamps_disabled (cfg : SwapFeeConfig) (amount : ℚ) :
    (cfg.maxFee = some 0 →
      calculateFee cfg amount = calculateFee { cfg with maxFee := none } amount) ∧
    (cfg.minFee = 0 → cfg.maxFee = none →
      (calculateFee cfg amount).fee = rawFee cfg amount) ∧
    (calculateFee fixed50Cfg amount).fee = 50 := by
  refine ⟨?_, ?_, ?_⟩
  · intro h
    simp [calculateFee, applyMaxFee, applyMinFee, rawFee, h, jsTruthy]
  · intro h1 h2
    simp [calculateFee, applyMaxFee, applyMinFee, h1, h2, jsTruthy]
  · simp [calculateFee, applyMaxFee, applyMinFee, rawFee, fixed50Cfg, jsTruthy]

/-- Witness for C10: the FIXED `baseFee = 50`, `maxFee = 0` config at
amount 123 — dropping the zero `maxFee` changes nothing, and with both
clamps disabled the fee is the raw fee. -/
theorem calculateFee_zero_clamps_disabled_witness :
    calculateFee fixed50Cfg 123 = calculateFee { fixed50Cfg with maxFee := none } 123 ∧
    (calculateFee { fixed50Cfg with maxFee := none } 123).fee =
      rawFee { fixed50Cfg with maxFee := none } 123 :=
  ⟨(calculateFee_zero_clamps_disabled fixed50Cfg 123).1 rfl,
   (calculateFee_zero_clamps_disabled { fixed50Cfg with maxFee := none } 123).2.1 rfl rfl⟩

/-- C4: getCurrentRate returns `none` exactly when no stored record
satisfies the current-rate predicate (pair match, `isActive`,
`validFrom <= now`, `validTo` null or `>= now`), and any record it returns
is a stored record satisfying the predicate whose `validFrom` is greatest
among all satisfying records. -/
theorem getCurrentRate_none_or_latest (store : List ExchangeRate)
    (base quote : String) (now : Int) :
    (getCurrentRate store base quote now = none ↔
      ∀ r ∈ store, currentRatePred base quote now r = false) ∧
    ∀ r, getCurrentRate store base quote now = some r →
      r ∈ store ∧ currentRatePred base quote now r = true ∧
      ∀ x ∈ store, currentRatePred base quote now x = true →
        x.validFrom ≤ r.validFrom := by
  constructor
  · rw [getCurrentRate, pickLatest_eq_none, List.filter_eq_nil_iff]
    simp
  · intro r h
    have hmem := pickLatest_mem h
    have hf := List.mem_filter.mp hmem
    refine ⟨hf.1, hf.2, ?_⟩
    intro x hx hpx
    exact pickLatest_ge h x (List.mem_filter.mpr ⟨hx, hpx⟩)

/-- Witness for C4: a store with two current XRP/KRW records (validFrom 3
and 5); the later-started one is returned and the theorem's guarantees hold
for it. -/
theorem getCurrentRate_none_or_latest_witness :
    getCurrentRate demoRateStore "XRP" "KRW" 10 = some demoRateB ∧
    (demoRateB ∈ demoRateStore ∧
      currentRatePred "XRP" "KRW" 10 demoRateB = true ∧
      ∀ x ∈ demoRateStore, currentRatePred "XRP" "KRW" 10 x = true →
        x.validFrom ≤ demoRateB.validFrom) := by
  have hc : getCurrentRate demoRateStore "XRP" "KRW" 10 = some demoRateB := by
    decide
  exact ⟨hc, (getCurrentRate_none_or_latest demoRateStore "XRP" "KRW" 10).2 demoRateB hc⟩

/-- C5: for a valid address, when no active domain record exists for the
issuer the access gate returns `allowed = true` with the no-restriction
reason — the fail-open default. -/
theorem checkTrustLinePermission_fail_open (isValidXRPAddress : String → Bool)
    (issuer userAddress : String) (store : List PermissionedDomain)
    (hv : isValidXRPAddress userAddress = true)
    (hd : findActiveDomain store issuer = none) :
    checkTrustLinePermission isValidXRPAddress (some issuer) store userAddress =
      { allowed := true, reason := "No domain restrictions" } := by
  simp [checkTrustLinePermission, hv, hd]

/-- Witness for C5: an empty domain store and an always-valid address. -/
theorem checkTrustLinePermission_fail_open_witness :
    checkTrustLinePermission (fun _ => true) (some "rADMIN") [] "rUSER" =
      { allowed := true, reason := "No domain restrictions" } :=
  checkTrustLinePermission_fail_open (fun _ => true) "rADMIN" "rUSER" [] rfl rfl

/-- C6: with a valid address and an active whitelist-mode domain found for
the issuer, the access gate allows the address iff some whitelist entry has
that address and either the domain does not require KYC or that entry's
KYC status is verified. -/
theorem checkTrustLinePermission_whitelist_iff (isValidXRPAddress : String → Bool)
    (issuer userAddress : String) (store : List PermissionedDomain)
    (d : PermissionedDomain)
    (hv : isValidXRPAddress userAddress = true)
    (hd : findActiveDomain store issuer = some d)
    (hw : d.domainType = .whitelist) :
    (checkTrustLinePermission isValidXRPAddress (some issuer) store
        userAddress).allowed = true ↔
      ∃ a ∈ d.allowedAccounts, a.address = userAddress ∧
        (d.settings.requireKYC = false ∨ a.kycStatus = .verified) := by
  simp only [checkTrustLinePermission, hv, Bool.not_true, Bool.false_eq_true,
    if_false, hd]
  rw [isAccountAllowed, hw]
  simp [List.any_eq_true, Bool.and_eq_true, Bool.or_eq_true, Bool.not_eq_true',
    and_assoc]

/-- Witness for C6: the demo whitelist domain requires KYC and its only
entry for rUSER is still pending, so rUSER is denied; the iff of the
theorem holds at this instance. -/
theorem checkTrustLinePermission_whitelist_iff_witness :
    ((checkTrustLinePermission (fun _ => true) (some "rADMIN")
        [demoWhitelistDomain] "rUSER").allowed = true ↔
      ∃ a ∈ demoWhitelistDomain.allowedAccounts, a.address = "rUSER" ∧
        (demoWhitelistDomain.settings.requireKYC = false ∨
          a.kycStatus = .verified)) ∧
    (checkTrustLinePermission (fun _ => true) (some "rADMIN")
        [demoWhitelistDomain] "rUSER").allowed = false :=
  ⟨checkTrustLinePermission_whitelist_iff (fun _ => true) "rADMIN" "rUSER"
      [demoWhitelistDomain] demoWhitelistDomain rfl (by decide) rfl,
   by decide⟩

/-- C7: whenever a record with truthy `rate` and a defined `spread` is
saved, the pre-save hook stores `bidRate = rate * (1 - spread)` and
`askRate = rate * (1 + spread)`. -/
theorem preSaveExchangeRate_spread_invariant (r : ExchangeRate) (s : ℚ)
    (h1 : r.rate ≠ 0) (h2 : r.spread = some s) :
    (preSaveExchangeRate r).bidRate = some (r.rate * (1 - s)) ∧
    (preSaveExchangeRate r).askRate = some (r.rate * (1 + s)) := by
  rw [preSaveExchangeRate, h2]
  simp [jsTruthy, h1]
  constructor <;> ring

/-- Witness for C7: rate 4197 with spread 0.001 yields bidRate 4192.803 and
askRate 4201.197 exactly. -/
theorem preSaveExchangeRate_spread_invariant_witness :
    (preSaveExchangeRate demoRate4197).bidRate = some ((4197 : ℚ) * (1 - 0.001)) ∧
    (preSaveExchangeRate demoRate4197).askRate = some ((4197 : ℚ) * (1 + 0.001)) ∧
    (4197 : ℚ) * (1 - 0.001) = 4192.803 ∧
    (4197 : ℚ) * (1 + 0.001) = 4201.197 := by
  have h := preSaveExchangeRate_spread_invariant demoRate4197 0.001
    (by norm_num [demoRate4197]) rfl
  exact ⟨h.1, h.2, by norm_num, by norm_num⟩

/-- C1 (amended): in processIOUToXRPSwap the user's token-return leg is
submitted first; when it fails the XRP payout leg is never attempted (the
submission list is exactly the return payment) and the result is the
generic failure object.  When it succeeds and the XRP leg then fails, no
further transaction — in particular no reversal of leg 1 — is submitted
(the list is exactly the two legs), and the result is again only
`{success: false, error}` carrying leg 2's error code: it has no PARTIAL
status field and leg 1's transaction hash is absent (`returnTxHash = none`
by the record's defaults). -/
theorem processIOUToXRPSwap_leg_order (admin userAddress : String)
    (cfg : Option SwapFeeConfig) (submit : Payment → SubmitResult) (iouAmount : ℚ) :
    ((submit (returnPaymentOf admin userAddress iouAmount)).success = false →
      processIOUToXRPSwap (some admin) cfg submit userAddress iouAmount =
        ({ success := false
           error := some ("IOU return failed: " ++
             (submit (returnPaymentOf admin userAddress iouAmount)).error.getD "null") },
         [returnPaymentOf admin userAddress iouAmount])) ∧
    ((submit (returnPaymentOf admin userAddress iouAmount)).success = true →
      (submit (xrpPaymentOf admin userAddress cfg iouAmount)).success = false →
      processIOUToXRPSwap (some admin) cfg submit userAddress iouAmount =
        ({ success := false
           error := some ("XRP payment failed: " ++
             (submit (xrpPaymentOf admin userAddress cfg iouAmount)).error.getD "null") },
         [returnPaymentOf admin userAddress iouAmount,
          xrpPaymentOf admin userAddress cfg iouAmount])) := by
  constructor
  · intro h1
    simp [processIOUToXRPSwap, h1]
  · intro h1 h2
    simp [processIOUToXRPSwap, h1, h2]

/-- Witness for C1's amended theorem: the concrete partial-failure scenario
(leg 1 succeeds with hash H1, leg 2 fails with tecUNFUNDED_PAYMENT). -/
theorem processIOUToXRPSwap_leg_order_witness :
    processIOUToXRPSwap (some "rADMIN") none partialFailSubmit "rUSER" 100 =
      ({ success := false
         error := some "XRP payment failed: tecUNFUNDED_PAYMENT" },
       [returnPaymentOf "rADMIN" "rUSER" 100,
        xrpPaymentOf "rADMIN" "rUSER" none 100]) :=
  (processIOUToXRPSwap_leg_order "rADMIN" "rUSER" none partialFailSubmit 100).2 rfl rfl

/-- Counterexample for C1 as stated: in the scenario where leg 1 succeeds
with hash H1 and leg 2 fails, the returned result is the generic failure
object — `success = false`, leg 1's hash NOT present (`returnTxHash = none`),
no field distinguishing this from a leg-1 failure (no PARTIAL status exists
in the result type because no JS branch produces one) — while the submission
list confirms leg 1 succeeded with H1 and nothing reversing it was sent. -/
theorem processIOUToXRPSwap_no_partial_status :
    partialFailSubmit (returnPaymentOf "rADMIN" "rUSER" 100) =
      { success := true, txHash := some "H1" } ∧
    partialFailOutcome.success = false ∧
    partialFailOutcome.returnTxHash = none ∧
    partialFailOutcome.xrpTxHash = none ∧
    partialFailOutcome.error = some "XRP payment failed: tecUNFUNDED_PAYMENT" ∧
    (processIOUToXRPSwap (some "rADMIN") none partialFailSubmit "rUSER" 100).2 =
      [returnPaymentOf "rADMIN" "rUSER" 100, xrpPaymentOf "rADMIN" "rUSER" none 100] :=
  ⟨rfl, rfl, rfl, rfl, rfl, rfl⟩

/-- C8 (amended): quote-to-base conversion divides the amount by the
record's rate, but a zero stored rate is NOT guarded: `convertAmount`
produces the non-finite JS quotient, and `convertKRWToXRP` still returns a
success-marked result with no error — not a domain error. -/
theorem convertKRWToXRP_zero_rate_unguarded (store : List ExchangeRate)
    (now : Int) (amount : ℚ) (r : ExchangeRate)
    (h : getCurrentRate store "XRP" "KRW" now = some r) :
    (convertAmount r amount "quote_to_base").convertedAmount = jsDiv amount r.rate ∧
    (r.rate ≠ 0 →
      (convertKRWToXRP store now amount).xrpAmount = some (amount / r.rate)) ∧
    (r.rate = 0 → convertKRWToXRP store now amount =
      { success := true, krwAmount := some amount, xrpAmount := none,
        rate := some 0 }) := by
  refine ⟨rfl, ?_, ?_⟩
  · intro hr
    simp [convertKRWToXRP, h, jsDiv, hr]
  · intro hr
    simp [convertKRWToXRP, h, jsDiv, hr]

/-- Witness for C8's amended theorem: with the nonzero demo rate the
division result is returned; with the zero-rate store the success-shaped
no-error result is returned. -/
theorem convertKRWToXRP_zero_rate_unguarded_witness :
    (convertKRWToXRP demoRateStore 10 100).xrpAmount = some (100 / demoRateB.rate) ∧
    convertKRWToXRP zeroRateStore 1 100 =
      { success := true, krwAmount := some 100, xrpAmount := none,
        rate := some 0 } :=
  ⟨(convertKRWToXRP_zero_rate_unguarded demoRateStore 10 100 demoRateB
      (by decide)).2.1 (by norm_num [demoRateB]),
   (convertKRWToXRP_zero_rate_unguarded zeroRateStore 1 100 zeroRateRecord
      (by decide)).2.2 rfl⟩

/-- Counterexample for C8 as stated: with a current record whose rate is
zero, convertKRWToXRP reports `success = true` and `error = none` — a
silently produced non-error result (the quotient is the non-finite JS
value, modelled by `xrpAmount = none`) instead of a domain error. -/
theorem convertKRWToXRP_zero_rate_counterexample :
    (convertKRWToXRP zeroRateStore 1 100).success = true ∧
    (convertKRWToXRP zeroRateStore 1 100).error = none ∧
    (convertKRWToXRP zeroRateStore 1 100).xrpAmount = none ∧
    zeroRateRecord.rate = 0 := by
  decide

/-- C9 (amended): getTotalIssuedAmount keeps no local bookkeeping — it is a
pure fold over the ledger-reported lines — and it sums the absolute values
of ALL balances of the configured KRW currency, a positive balance
contributing its absolute value exactly like a negative one. -/
theorem getTotalIssuedAmount_abs_all_balances (admin : String)
    (lines : List TrustLine) :
    getTotalIssuedAmount (some admin) (some lines) =
      { success := true
        totalIssued := some (((lines.filter (fun l => l.currency == "KRW")).map
          (fun l => |l.balance|)).sum)
        currency := some "KRW" } := by
  simp only [getTotalIssuedAmount]
  rw [krwAbsFoldl, zero_add]

/-- Counterexample for C9 as stated: a single positive-balance KRW line
contributes 5 to the code's total, while the spec's negative-balances-only
sum is 0. -/
theorem getTotalIssuedAmount_counts_positive_balances :
    (getTotalIssuedAmount (some "rADMIN") (some [positiveKrwLine])).totalIssued =
      some 5 ∧
    specNegativeOnlyIssuedTotal [positiveKrwLine] = 0 ∧
    (5 : ℚ) ≠ 0 := by
  refine ⟨?_, ?_, by norm_num⟩
  · norm_num [getTotalIssuedAmount, positiveKrwLine]
  · norm_num [specNegativeOnlyIssuedTotal, positiveKrwLine]
